import Mathlib

/-!
Verification of the Generation Orchestration & Structured-Response Extraction
Engine of the DSA-Coach repository.

The Python services are shallowly embedded as Lean functions:

  * `backend/services/code_review_service.py`    → namespace `CodeReviewService`
  * `backend/services/problem_generator_service.py` → namespace `ProblemGeneratorService`
  * `backend/services/gemini_service.py`         → namespace `GeminiService`
  * `backend/services/hint_service.py`           → namespace `HintService`
  * `shared/models.py`                           → the data structures below

The external Gemini call `model.generate_content` is the only effect; it is
modelled as an explicit oracle argument (per-attempt outcome).  `datetime.now()`
timestamp fields and logging calls are omitted: they carry no data used by any
computation.  Python string primitives are modelled in namespace `Py` with
structural recursion so that every definition evaluates inside the kernel.
-/

namespace DSACoach

namespace Py

/-- The characters stripped by Python `str.strip()` (ASCII whitespace). -/
def isSpace (c : Char) : Bool :=
  c = ' ' || c = '\t' || c = '\n' || c = '\r' || c = Char.ofNat 11 || c = Char.ofNat 12

/-- Python `s.strip()`. -/
def strip (s : String) : String :=
  String.mk (((s.toList.dropWhile isSpace).reverse.dropWhile isSpace).reverse)

/-- Python `s.lower()` (ASCII case folding, which covers every input the
engine feeds to it). -/
def lower (s : String) : String :=
  String.mk (s.toList.map Char.toLower)

/-- Python `s.lstrip(chars)`: drop leading characters belonging to `cs`. -/
def lstripSet (cs : List Char) (s : String) : String :=
  String.mk (s.toList.dropWhile (fun c => cs.contains c))

/-- `needle.isPrefixOf hay` on character lists, as a helper for substring
search. -/
def subList (needle : List Char) : List Char → Bool
  | [] => needle.isEmpty
  | c :: rest => needle.isPrefixOf (c :: rest) || subList needle rest

/-- Python `needle in hay` (substring containment). -/
def strIn (needle hay : String) : Bool :=
  subList needle.toList hay.toList

/-- Python `s.startswith(p)`. -/
def startsWith (s p : String) : Bool :=
  p.toList.isPrefixOf s.toList

/-- Splitting worker: `fuel` bounds the recursion by the length of the text,
each step consumes at least one character. -/
def splitOnListAux (sep : List Char) : Nat → List Char → List (List Char)
  | _, [] => [[]]
  | 0, l => [l]
  | fuel + 1, x :: xs =>
    if sep.isPrefixOf (x :: xs) then
      [] :: splitOnListAux sep fuel ((x :: xs).drop sep.length)
    else
      match splitOnListAux sep fuel xs with
      | [] => [[x]]
      | h :: t => (x :: h) :: t

/-- Python `s.split(sep)` for a non-empty separator (the engine only splits on
`"\n"` and `"Problem"`). -/
def split (s sep : String) : List String :=
  if sep = "" then [s]
  else (splitOnListAux sep.toList s.toList.length s.toList).map String.mk

/-- Python `s.split(sep, 1)[1]` for `sep = ':'`: everything after the first
colon (callers only index `[1]` on lines already known to contain a colon). -/
def afterColon (s : String) : String :=
  match s.toList.dropWhile (fun c => c != ':') with
  | [] => ""
  | _ :: rest => String.mk rest

/-- Python `any(char.isdigit() for char in line)`. -/
def hasDigit (s : String) : Bool :=
  s.toList.any Char.isDigit

/-- Python `int(''.join(filter(str.isdigit, line)))` (callers guard on
`hasDigit`, so the digit list is never empty there). -/
def digitsVal (s : String) : Nat :=
  (s.toList.filter Char.isDigit).foldl (fun n c => 10 * n + (c.toNat - 48)) 0

/-- First index at or after `i` where `needle` occurs in `hay`
(Python `hay.find(needle)` restricted to found occurrences). -/
def findSubFrom (needle : List Char) : List Char → Nat → Option Nat
  | [], i => if needle.isEmpty then some i else none
  | c :: rest, i =>
    if needle.isPrefixOf (c :: rest) then some i
    else findSubFrom needle rest (i + 1)

/-- Python `hay.find(c, start)`: index of `c` at or after `start`, `none` when
Python would return `-1`. -/
def findCharFrom (hay : List Char) (c : Char) (start : Nat) : Option Nat :=
  findSubFrom [c] (hay.drop start) start

/-- Python `s[a:b]` on character indices. -/
def slice (l : List Char) (a b : Nat) : List Char :=
  (l.drop a).take (b - a)

end Py

/-! ## Data model (`shared/models.py`)

Fields that the engine never reads or writes (`id`, `examples`,
`constraints`, `created_at`, timestamps) are omitted. -/

/-- `DifficultyLevel` from `shared/models.py`. -/
inductive DifficultyLevel where
  | EASY
  | MEDIUM
  | HARD
deriving DecidableEq, Repr

/-- `.value` of the Python `str`-enum. -/
def DifficultyLevel.value : DifficultyLevel → String
  | .EASY => "Easy"
  | .MEDIUM => "Medium"
  | .HARD => "Hard"

/-- `Problem` from `shared/models.py` (the fields the engine populates). -/
structure Problem where
  title : String
  statement : String
  difficulty : DifficultyLevel
  core_concept : String
  context : String
  estimated_time : String
  complexity : String
  approach_hint : Option String
deriving DecidableEq, Repr

/-- `CodeAnalysis` from `shared/models.py`. -/
structure CodeAnalysis where
  correctness_score : Nat
  time_complexity : String
  space_complexity : String
  style_rating : Nat
  summary : String
deriving DecidableEq, Repr

/-- `CodeReviewRequest` from `shared/models.py`. -/
structure CodeReviewRequest where
  code : String
  language : String
  problem_context : Option String
  focus_aspects : List String
  additional_context : Option String
deriving DecidableEq, Repr

/-- `CodeReviewResponse` from `shared/models.py` (`review_timestamp` omitted). -/
structure CodeReviewResponse where
  overall_analysis : CodeAnalysis
  issues : List String
  optimizations : List String
  alternatives : List String
deriving DecidableEq, Repr

/-- `ProblemGenerationRequest` from `shared/models.py`. -/
structure ProblemGenerationRequest where
  original_problem : String
  num_variations : Nat
  difficulty_level : DifficultyLevel
  context_options : List String
  focus_areas : List String
  include_hints : Bool
deriving DecidableEq, Repr

/-- `HintRequest` from `shared/models.py`. -/
structure HintRequest where
  problem_id : String
  current_hint_level : Int
  user_approach : Option String
deriving DecidableEq, Repr

/-- `Hint` from `shared/models.py` (`timestamp` omitted). -/
structure Hint where
  level : Int
  content : String
  hint_type : String
deriving DecidableEq, Repr

/-- `HintResponse` from `shared/models.py`. -/
structure HintResponse where
  hint : Hint
  next_available : Bool
  total_levels : Nat
deriving DecidableEq, Repr

/-! ## `backend/services/code_review_service.py` -/

namespace CodeReviewService

/-- `CodeReviewService._generate_code_review_prompt`. -/
def _generate_code_review_prompt (request : CodeReviewRequest) : String :=
  let aspects_text :=
    if request.focus_aspects ≠ [] then String.intercalate ", " request.focus_aspects
    else "all aspects"
  "\n        As DSA-COACH AI, provide a comprehensive code review for this "
    ++ request.language ++ " code:\n        \n        Problem Context: "
    ++ (match request.problem_context with
        | some pc => if pc = "" then "Not provided" else pc
        | none => "Not provided")
    ++ "\n        \n        Code:\n        ```" ++ request.language ++ "\n        "
    ++ request.code ++ "\n        ```\n        \n        Additional Context: "
    ++ (match request.additional_context with
        | some ac => if ac = "" then "None" else ac
        | none => "None")
    ++ "\n        \n        Focus on these aspects: " ++ aspects_text
    ++ "\n        \n        Provide a detailed analysis including:\n        \n        1. OVERALL ANALYSIS:\n           - Correctness assessment (score 1-10)\n           - Time complexity analysis\n           - Space complexity analysis\n           - Code style rating (1-10)\n           - Brief summary of the solution quality\n        \n        2. ISSUES FOUND:\n           - Logic errors or bugs\n           - Edge cases not handled\n           - Performance issues\n           - Style/readability problems\n           - Security concerns (if applicable)\n        \n        3. OPTIMIZATIONS:\n           - Performance improvements\n           - Memory usage optimizations\n           - Cleaner implementation suggestions\n           - Best practice recommendations\n        \n        4. ALTERNATIVE APPROACHES:\n           - Different algorithms that could work\n           - Trade-offs between approaches\n           - When to use each approach\n           - More elegant or efficient solutions\n        \n        Be constructive and educational. Explain the \x27why\x27 behind your suggestions.\n        Format your response with clear section headers.\n        "

/-- The `CodeAnalysis` defaults with which `_parse_overall_section`
initializes `analysis` (summary is the section text, truncated to 200
characters with an ellipsis when longer). -/
def overallDefault (content : String) : CodeAnalysis :=
  { correctness_score := 7
    time_complexity := "O(n)"
    space_complexity := "O(1)"
    style_rating := 7
    summary := if content.length > 200 then String.mk (content.toList.take 200) ++ "..." else content }

/-- One iteration of the line loop of
`CodeReviewService._parse_overall_section`. -/
def updateOverallLine (a : CodeAnalysis) (line : String) : CodeAnalysis :=
  let line_lower := Py.lower line
  if Py.strIn "correctness" line_lower && Py.hasDigit line then
    let score := Py.digitsVal line
    if 1 ≤ score ∧ score ≤ 10 then { a with correctness_score := score } else a
  else if Py.strIn "style" line_lower && Py.hasDigit line then
    let score := Py.digitsVal line
    if 1 ≤ score ∧ score ≤ 10 then { a with style_rating := score } else a
  else if Py.strIn "time complexity" line_lower then
    if Py.strIn "o(" line_lower then
      match Py.findSubFrom "o(".toList line_lower.toList 0 with
      | none => a
      | some start =>
        match Py.findCharFrom line.toList ')' start with
        | none => a
        | some stop => { a with time_complexity := String.mk (Py.slice line.toList start (stop + 1)) }
    else a
  else if Py.strIn "space complexity" line_lower then
    if Py.strIn "o(" line_lower then
      match Py.findSubFrom "o(".toList line_lower.toList 0 with
      | none => a
      | some start =>
        match Py.findCharFrom line.toList ')' start with
        | none => a
        | some stop => { a with space_complexity := String.mk (Py.slice line.toList start (stop + 1)) }
    else a
  else a

/-- `CodeReviewService._parse_overall_section`. -/
def _parse_overall_section (content : String) : CodeAnalysis :=
  (Py.split content "\n").foldl updateOverallLine (overallDefault content)

/-- Accumulator of `CodeReviewService._parse_list_section`
(`items`, `current_item`). -/
structure ListAcc where
  items : List String
  current_item : String
deriving DecidableEq, Repr

/-- Python `line.startswith(('-', '•', '*')) or (line and line[0].isdigit()
and '.' in line[:3])`. -/
def listMarkerStart (line : String) : Bool :=
  Py.startsWith line "-" || Py.startsWith line "•" || Py.startsWith line "*" ||
    (line != "" && (line.toList.headD ' ').isDigit && Py.strIn "." (String.mk (line.toList.take 3)))

/-- Python `line.lstrip('-•*0123456789. ')`. -/
def stripMarker (line : String) : String :=
  Py.lstripSet "-•*0123456789. ".toList line

/-- One iteration of the line loop of `CodeReviewService._parse_list_section`. -/
def listStep (acc : ListAcc) (rawLine : String) : ListAcc :=
  let line := Py.strip rawLine
  if listMarkerStart line then
    { items := if acc.current_item ≠ "" then acc.items ++ [Py.strip acc.current_item] else acc.items
      current_item := stripMarker line }
  else if line ≠ "" ∧ acc.current_item ≠ "" then
    { acc with current_item := acc.current_item ++ " " ++ line }
  else if line ≠ "" ∧ acc.current_item = "" then
    { acc with current_item := line }
  else acc

/-- `CodeReviewService._parse_list_section`. -/
def _parse_list_section (content : String) : List String :=
  let acc := (Py.split content "\n").foldl listStep { items := [], current_item := "" }
  let items := if acc.current_item ≠ "" then acc.items ++ [Py.strip acc.current_item] else acc.items
  items.filter (fun item => item ≠ "")

/-- The section keys of `_parse_review_response`. -/
inductive SectionKey where
  | overall
  | issues
  | optimizations
  | alternatives
deriving DecidableEq, Repr

/-- The `sections` dictionary of `_parse_review_response`. -/
structure ReviewSections where
  overall : CodeAnalysis
  issues : List String
  optimizations : List String
  alternatives : List String
deriving DecidableEq, Repr

/-- Initial value of the `sections` dictionary in `_parse_review_response`. -/
def reviewDefaults : ReviewSections :=
  { overall :=
      { correctness_score := 7
        time_complexity := "O(n)"
        space_complexity := "O(1)"
        style_rating := 7
        summary := "Code analysis completed" }
    issues := []
    optimizations := []
    alternatives := [] }

/-- `CodeReviewService._process_section_content` folded into the dictionary
write `sections[current_section] = ...`. -/
def commitSection (secs : ReviewSections) (key : SectionKey) (content : List String) : ReviewSections :=
  let text := String.intercalate "\n" content
  match key with
  | .overall => { secs with overall := _parse_overall_section text }
  | .issues => { secs with issues := _parse_list_section text }
  | .optimizations => { secs with optimizations := _parse_list_section text }
  | .alternatives => { secs with alternatives := _parse_list_section text }

/-- The section-header tests of `_parse_review_response`, in source order
(`elif` chain); `none` when the line is not a header.  The `and`/`or`
grouping reproduces the Python operator precedence
(`a in x or b in y and c in z` is `a in x or (b in y and c in z)`). -/
def headerKeyOf (line : String) : Option SectionKey :=
  let line_lower := Py.lower line
  if Py.strIn "overall analysis" line_lower || (Py.strIn "1." line && Py.strIn "overall" line_lower) then
    some .overall
  else if Py.strIn "issues found" line_lower || (Py.strIn "2." line && Py.strIn "issues" line_lower) then
    some .issues
  else if Py.strIn "optimizations" line_lower || (Py.strIn "3." line && Py.strIn "optimization" line_lower) then
    some .optimizations
  else if Py.strIn "alternative" line_lower || (Py.strIn "4." line && Py.strIn "alternative" line_lower) then
    some .alternatives
  else none

/-- Loop state of `_parse_review_response`
(`sections`, `current_section`, `current_content`). -/
structure ReviewParseState where
  secs : ReviewSections
  cur : Option SectionKey
  content : List String
deriving DecidableEq, Repr

/-- The commit guarded by `if current_section and current_content`. -/
def maybeCommit (st : ReviewParseState) : ReviewSections :=
  match st.cur with
  | some k => if st.content ≠ [] then commitSection st.secs k st.content else st.secs
  | none => st.secs

/-- One iteration of the line loop of
`CodeReviewService._parse_review_response`. -/
def reviewStep (st : ReviewParseState) (rawLine : String) : ReviewParseState :=
  let line := Py.strip rawLine
  match headerKeyOf line with
  | some k => { secs := maybeCommit st, cur := some k, content := [] }
  | none =>
    if line ≠ "" ∧ st.cur.isSome then { st with content := st.content ++ [line] }
    else st

/-- `CodeReviewService._parse_review_response`. -/
def _parse_review_response (response : String) : ReviewSections :=
  let st := (Py.split response "\n").foldl reviewStep
    { secs := reviewDefaults, cur := none, content := [] }
  maybeCommit st

/-- `CodeReviewService._get_fallback_review` (timestamp omitted). -/
def _get_fallback_review : CodeReviewResponse :=
  { overall_analysis :=
      { correctness_score := 6
        time_complexity := "Unable to analyze"
        space_complexity := "Unable to analyze"
        style_rating := 6
        summary := "Code review service temporarily unavailable. Please try again later." }
    issues := ["Unable to analyze issues at this time"]
    optimizations := ["Please resubmit your code for optimization suggestions"]
    alternatives := ["Alternative approaches analysis unavailable"] }

/-- `CodeReviewService.review_code`: `gen` is the
`gemini_service.generate_response` collaborator, returning the generated
text or the raised exception message; any failure routes to the fallback
review. -/
def review_code (gen : String → Except String String) (request : CodeReviewRequest) : CodeReviewResponse :=
  match gen (_generate_code_review_prompt request) with
  | .ok response =>
    let review_data := _parse_review_response response
    { overall_analysis := review_data.overall
      issues := review_data.issues
      optimizations := review_data.optimizations
      alternatives := review_data.alternatives }
  | .error _ => _get_fallback_review

end CodeReviewService

/-! ## `backend/services/gemini_service.py`

The client object is reduced to the data `generate_response` reads:
whether `self.model` is set, `self.max_retries` and `self.retry_delay`
(`MAX_RETRIES = 3`, `RETRY_DELAY = 1` in `shared/config.py`).  The external
call `self.model.generate_content(enhanced_prompt)` is an oracle mapping the
enhanced prompt and the attempt number to an outcome. -/

namespace GeminiService

/-- The `user_profile` context dictionary (`.get` with `'Unknown'` defaults);
`none` on a field models a missing key. -/
structure UserProfileCtx where
  skill_level : Option String
  target_goal : Option String
deriving DecidableEq, Repr

/-- The `current_problem` context dictionary (`.get` with defaults). -/
structure CurrentProblemCtx where
  title : Option String
  difficulty : Option String
deriving DecidableEq, Repr

/-- The `context` dictionary of `generate_response`/
`_enhance_prompt_with_context`.  An absent or falsy entry
(`context.get(...)` false) is the empty list / `none`. -/
structure PromptContext where
  conversation_history : List String
  user_profile : Option UserProfileCtx
  current_problem : Option CurrentProblemCtx
deriving DecidableEq, Repr

/-- The `system_context` literal of `GeminiService._add_system_context`. -/
def system_context : String :=
  "\n        You are DSA-COACH AI, an intelligent coding mentor specializing in Data Structures and Algorithms. Your role is to help students master DSA concepts through guided practice, avoiding solution dependency.\n\n        Core principles:\n        - Focus on understanding over memorization\n        - Provide progressive hints without revealing complete solutions\n        - Encourage independent thinking through guided questions\n        - Be patient, encouraging, and adapt to the user\x27s level\n        - Connect new problems to previously learned concepts\n        - Build intuition through analogies and examples\n\n        Always maintain a supportive and educational tone. Guide users to discover solutions independently while building lasting DSA intuition.\n        "

/-- `GeminiService._add_system_context`. -/
def _add_system_context (prompt : String) : String :=
  system_context ++ "\n\nUser Request: " ++ prompt

/-- Python `history[-3:]`. -/
def lastN (n : Nat) (l : List String) : List String :=
  l.drop (l.length - n)

/-- `GeminiService._enhance_prompt_with_context`. -/
def _enhance_prompt_with_context (prompt : String) (context : PromptContext) : String :=
  let enhanced := _add_system_context prompt
  let enhanced :=
    if context.conversation_history ≠ [] then
      let history := lastN 3 context.conversation_history
      let history_text := String.intercalate "\n" (history.map (fun item => "Previous: " ++ item))
      enhanced ++ "\n\nConversation History:\n" ++ history_text
    else enhanced
  let enhanced :=
    match context.user_profile with
    | some profile =>
      enhanced ++ "\n\nUser Profile: Skill Level: " ++ profile.skill_level.getD "Unknown"
        ++ ", Goal: " ++ profile.target_goal.getD "Unknown"
    | none => enhanced
  let enhanced :=
    match context.current_problem with
    | some problem =>
      enhanced ++ "\n\nCurrent Problem Context: " ++ problem.title.getD "N/A"
        ++ " - " ++ problem.difficulty.getD "Unknown" ++ " difficulty"
    | none => enhanced
  enhanced

/-- Outcome of one `self.model.generate_content(...)` call: a raised
exception with its message, or a response carrying its `.text`
(an absent/empty `.text` attribute is the empty string). -/
inductive AttemptOutcome where
  | err (msg : String)
  | resp (text : String)
deriving DecidableEq, Repr

/-- The `try` body of one loop iteration of `generate_response`:
a truthy `response.text` returns the trimmed text, anything else raises
(the raise is caught by the `except` of the same iteration, carrying the
message). -/
def attemptResult : AttemptOutcome → Except String String
  | .resp text => if text ≠ "" then .ok (Py.strip text) else .error "Empty response from Gemini"
  | .err msg => .error msg

deriving instance DecidableEq for Except

/-- Result of `generate_response`: the returned text or the message of the
terminal exception, together with the `time.sleep` delays performed (in
units of `retry_delay`, which is an integer in `shared/config.py`). -/
structure GenResult where
  result : Except String String
  delays : List Nat
deriving DecidableEq, Repr

/-- Loop state of `generate_response`: `done` is the early
return (or terminal raise) of the `for` loop. -/
structure GenLoopState where
  done : Option (Except String String)
  delays : List Nat
deriving DecidableEq, Repr

/-- One iteration `attempt` of
`for attempt in range(self.max_retries)` in `generate_response`. -/
def generateStep (retry_delay max_retries : Nat) (oracle : Nat → AttemptOutcome)
    (st : GenLoopState) (attempt : Nat) : GenLoopState :=
  match st.done with
  | some _ => st
  | none =>
    match attemptResult (oracle attempt) with
    | .ok text => { st with done := some (.ok text) }
    | .error msg =>
      if attempt < max_retries - 1 then
        { st with delays := st.delays ++ [retry_delay * (attempt + 1)] }
      else
        { st with done := some (.error ("Failed to generate response after "
            ++ toString max_retries ++ " attempts: " ++ msg)) }

/-- `GeminiService.generate_response`.  `initialized` is `self.model is not
None`.  (With `max_retries = 0` the Python loop body never runs and the
function falls off the end; the `getD` default stands in for that `None` —
every constructed client has `max_retries = MAX_RETRIES = 3`.) -/
def generate_response (initialized : Bool) (retry_delay max_retries : Nat)
    (prompt : String) (context : PromptContext)
    (oracle : String → Nat → AttemptOutcome) : GenResult :=
  if !initialized then
    { result := .error "Gemini client not initialized. Please check your API key.", delays := [] }
  else
    let enhanced_prompt := _enhance_prompt_with_context prompt context
    let st := (List.range max_retries).foldl
      (generateStep retry_delay max_retries (oracle enhanced_prompt))
      { done := none, delays := [] }
    { result := st.done.getD (.error "generate_response returned None"), delays := st.delays }

end GeminiService

/-! ## `backend/services/problem_generator_service.py` -/

namespace ProblemGeneratorService

/-- `ProblemGeneratorService._create_generation_prompt`. -/
def _create_generation_prompt (request : ProblemGenerationRequest) : String :=
  let focus_text :=
    if request.focus_areas ≠ [] then
      "Focus specifically on: " ++ String.intercalate ", " request.focus_areas
    else ""
  let hint_instruction :=
    if request.include_hints then "Include a high-level approach hint for each variation."
    else "Do not include solution hints."
  "\n        As DSA-COACH AI, analyze the following coding problem and generate "
    ++ toString request.num_variations
    ++ " similar problem variations.\n\n        Original Problem:\n        "
    ++ request.original_problem
    ++ "\n\n        Requirements:\n        1. Generate "
    ++ toString request.num_variations
    ++ " variations that practice the same core algorithmic concept\n        2. Difficulty level: "
    ++ request.difficulty_level.value
    ++ "\n        3. Include these context variations: "
    ++ String.intercalate ", " request.context_options
    ++ "\n        4. " ++ focus_text
    ++ "\n        5. " ++ hint_instruction
    ++ "\n        6. Each variation should have:\n           - A clear problem title\n           - Complete problem statement with examples\n           - Same core algorithmic pattern but different context\n           - Appropriate constraints\n           - Estimated solve time\n           - Expected time/space complexity\n\n        For each variation, provide:\n        - Title: Brief descriptive title\n        - Difficulty: Easy/Medium/Hard\n        - Core Concept: Main algorithmic concept being practiced\n        - Statement: Complete problem description with examples and constraints\n        - Context: How it differs from the original\n        - Estimated Time: Expected solve time (e.g., \"15-20 min\")\n        - Complexity: Expected time complexity (e.g., \"O(n)\")\n        - Approach Hint: High-level approach (only if requested)\n\n        Format your response as a structured list with clear sections for each problem.\n        Make sure each variation is significantly different but tests the same core concept.\n        "

/-- The labelled fields of `_parse_problem_section`
(the `current_field` marker strings). -/
inductive ProblemField where
  | title
  | difficulty
  | statement
  | concept
  | context
  | time
  | complexity
  | hint
deriving DecidableEq, Repr

/-- Loop state of `_parse_problem_section`: the accumulated field values and
`current_field`. -/
structure ProblemAcc where
  title : String
  statement : String
  difficulty : DifficultyLevel
  core_concept : String
  context : String
  estimated_time : String
  complexity : String
  approach_hint : Option String
  current_field : Option ProblemField
deriving DecidableEq, Repr

/-- The defaults with which `_parse_problem_section` initializes its local
variables (for chunk number `problem_num`). -/
def problemAccInit (problem_num : Nat) : ProblemAcc :=
  { title := "Generated Problem " ++ toString problem_num
    statement := ""
    difficulty := .MEDIUM
    core_concept := "Algorithm Practice"
    context := "Generated variation"
    estimated_time := "15-20 min"
    complexity := "O(n)"
    approach_hint := none
    current_field := none }

/-- One iteration of the line loop of
`ProblemGeneratorService._parse_problem_section` (the `elif` chain of
case-insensitive labelled prefixes, then the statement-continuation case). -/
def problemLineStep (acc : ProblemAcc) (line : String) : ProblemAcc :=
  let line_lower := Py.lower line
  if Py.startsWith line_lower "title:" || Py.startsWith line_lower "- title:" then
    { acc with title := Py.strip (Py.afterColon line), current_field := some .title }
  else if Py.startsWith line_lower "difficulty:" || Py.startsWith line_lower "- difficulty:" then
    let diff_text := Py.lower (Py.strip (Py.afterColon line))
    { acc with
        difficulty :=
          if Py.strIn "easy" diff_text then .EASY
          else if Py.strIn "hard" diff_text then .HARD
          else .MEDIUM
        current_field := some .difficulty }
  else if Py.startsWith line_lower "statement:" || Py.startsWith line_lower "- statement:"
      || Py.startsWith line_lower "description:" then
    { acc with statement := Py.strip (Py.afterColon line), current_field := some .statement }
  else if Py.startsWith line_lower "core concept:" || Py.startsWith line_lower "- core concept:"
      || Py.startsWith line_lower "concept:" then
    { acc with core_concept := Py.strip (Py.afterColon line), current_field := some .concept }
  else if Py.startsWith line_lower "context:" || Py.startsWith line_lower "- context:" then
    { acc with context := Py.strip (Py.afterColon line), current_field := some .context }
  else if Py.startsWith line_lower "estimated time:" || Py.startsWith line_lower "- estimated time:"
      || Py.startsWith line_lower "time:" then
    { acc with estimated_time := Py.strip (Py.afterColon line), current_field := some .time }
  else if Py.startsWith line_lower "complexity:" || Py.startsWith line_lower "- complexity:" then
    { acc with complexity := Py.strip (Py.afterColon line), current_field := some .complexity }
  else if Py.startsWith line_lower "hint:" || Py.startsWith line_lower "- hint:"
      || Py.startsWith line_lower "approach hint:" then
    { acc with approach_hint := some (Py.strip (Py.afterColon line)), current_field := some .hint }
  else if acc.current_field = some .statement
      ∧ ¬(Py.startsWith line "-" || Py.startsWith line "title:" || Py.startsWith line "difficulty:") then
    { acc with statement := acc.statement ++ " " ++ line }
  else acc

/-- `ProblemGeneratorService._parse_problem_section` for chunk
`section_text` at index `problem_num`. -/
def _parse_problem_section (section_text : String) (problem_num : Nat) : Problem :=
  let lines := ((Py.split section_text "\n").map Py.strip).filter (fun line => line ≠ "")
  let acc := lines.foldl problemLineStep (problemAccInit problem_num)
  { title := acc.title
    statement :=
      if acc.statement = "" then
        "Practice problem " ++ toString problem_num ++ " focusing on " ++ acc.core_concept
      else acc.statement
    difficulty := acc.difficulty
    core_concept := acc.core_concept
    context := acc.context
    estimated_time := acc.estimated_time
    complexity := acc.complexity
    approach_hint := acc.approach_hint }

/-- `ProblemGeneratorService._parse_generated_problems`: splits the response
on the literal `"Problem"`, parses every chunk after the first with its
1-based index (`_parse_problem_section` always produces a truthy record and
never raises, so no chunk is skipped). -/
def _parse_generated_problems (response : String) : List Problem :=
  let sections := Py.split response "Problem"
  (List.enumFrom 1 (sections.drop 1)).map
    (fun p => _parse_problem_section p.2 p.1)

/-- The fixed seed data of `_generate_fallback_problems`. -/
structure FallbackSeed where
  title : String
  statement : String
  core_concept : String
  context : String
deriving DecidableEq, Repr

/-- The `fallback_problems` literal of `_generate_fallback_problems`. -/
def fallback_problems : List FallbackSeed :=
  [ { title := "Array Sum Variation"
      statement := "Find the maximum sum of any contiguous subarray in the given array."
      core_concept := "Dynamic Programming"
      context := "Classic subarray problem" },
    { title := "Tree Traversal Challenge"
      statement := "Implement an iterative in-order traversal of a binary tree."
      core_concept := "Tree Traversal"
      context := "Iterative approach" },
    { title := "Hash Table Lookup"
      statement := "Find two numbers in an array that add up to a target sum."
      core_concept := "Hash Tables"
      context := "Two-sum variation" } ]

/-- `ProblemGeneratorService._generate_fallback_problems`
(`fallback_problems[:request.num_variations]`). -/
def _generate_fallback_problems (request : ProblemGenerationRequest) : List Problem :=
  (fallback_problems.take request.num_variations).map (fun prob_data =>
    { title := prob_data.title
      statement := prob_data.statement
      difficulty := request.difficulty_level
      core_concept := prob_data.core_concept
      context := prob_data.context
      estimated_time := "15-20 min"
      complexity := "O(n)"
      approach_hint :=
        if request.include_hints then
          some "Think about the most efficient data structure for this problem."
        else none })

/-- `ProblemGeneratorService.generate_problems`: `gen` is the
`gemini_service.generate_response` collaborator (generated text, or raised
exception message, for a given prompt). -/
def generate_problems (gen : String → Except String String)
    (request : ProblemGenerationRequest) : List Problem :=
  match gen (_create_generation_prompt request) with
  | .ok response =>
    let problems := _parse_generated_problems response
    if problems = [] then _generate_fallback_problems request else problems
  | .error _ => _generate_fallback_problems request

end ProblemGeneratorService

/-! ## `backend/services/hint_service.py`

`self.max_hint_levels = 4` in `HintService.__init__`; it is kept as the
`max_hint_levels` parameter below.  `gen` is the
`gemini_service.generate_response` collaborator (generated text, or raised
exception message, for a given prompt). -/

namespace HintService

/-- The `user_approach_text` of `_create_hint_prompt`
(`if user_approach` is Python truthiness: absent or empty is falsy). -/
def user_approach_text : Option String → String
  | some ua => if ua = "" then "" else "\nUser\x27s current approach: " ++ ua
  | none => ""

/-- `HintService._create_hint_prompt`. -/
def _create_hint_prompt (problem : Problem) (hint_level : Int) (user_approach : Option String) : String :=
  let base_prompt :=
    "\n        As DSA-COACH AI, provide a Level " ++ toString hint_level
      ++ " hint for this problem:\n        \n        Problem: " ++ problem.statement
      ++ "\n        " ++ user_approach_text user_approach ++ "\n        "
  if hint_level = 1 then
    base_prompt ++ "\n            \n            Provide Level 1 hint - CLARIFYING QUESTIONS:\n            - Ask 2-3 thought-provoking questions to help understand the problem better\n            - Guide them to identify key constraints and requirements\n            - Help them think about edge cases\n            - Don\x27t reveal the algorithm or approach yet\n            \n            Focus on problem comprehension, not solution approach.\n            "
  else if hint_level = 2 then
    base_prompt ++ "\n            \n            Provide Level 2 hint - ALGORITHM DIRECTION:\n            - Suggest the general algorithmic approach (e.g., \"Consider using two pointers\")\n            - Mention the data structure family that might be helpful\n            - Explain WHY this approach fits the problem\n            - Don\x27t give implementation details yet\n            \n            Guide them toward the right algorithmic thinking.\n            "
  else if hint_level = 3 then
    base_prompt ++ "\n            \n            Provide Level 3 hint - SOLUTION STRUCTURE:\n            - Outline the high-level steps of the solution\n            - Explain the overall structure and flow\n            - Mention key variables or data structures needed\n            - Still avoid specific code implementation\n            \n            Help them see the solution framework.\n            "
  else if hint_level = 4 then
    base_prompt ++ "\n            \n            Provide Level 4 hint - IMPLEMENTATION HELP:\n            - Give specific implementation guidance\n            - Show pseudocode or key code snippets if needed\n            - Address common implementation pitfalls\n            - Help with the trickiest parts of coding\n            \n            Provide concrete implementation assistance while encouraging independent coding.\n            "
  else base_prompt

/-- `HintService._create_personalized_hint_prompt`. -/
def _create_personalized_hint_prompt (problem : Problem) (user_approach : String) : String :=
  "\n        As DSA-COACH AI, analyze the user\x27s current approach and provide personalized guidance:\n        \n        Problem: "
    ++ problem.statement
    ++ "\n        \n        User\x27s Current Approach: " ++ user_approach
    ++ "\n        \n        Please:\n        1. Evaluate their approach - is it on the right track?\n        2. If correct direction: Encourage and give next steps\n        3. If incorrect: Gently redirect without discouraging\n        4. Provide specific, actionable guidance based on their thinking\n        5. Ask follow-up questions to guide their thought process\n        \n        Be supportive and build on their existing understanding.\n        "

/-- `HintService._create_stuck_help_prompt`. -/
def _create_stuck_help_prompt (problem : Problem) : String :=
  "\n        As DSA-COACH AI, the user is completely stuck on this problem. Provide emergency guidance:\n        \n        Problem: "
    ++ problem.statement
    ++ "\n        \n        The user needs immediate help to get unstuck. Please:\n        1. Reassure them that being stuck is normal and part of learning\n        2. Suggest a simpler version of the problem to start with\n        3. Provide a concrete first step they can take\n        4. Offer an analogy or real-world example to build intuition\n        5. Suggest breaking the problem into smaller pieces\n        \n        Focus on getting them moving again with confidence.\n        "

/-- `HintService._get_hint_type` (`hint_types.get(level, "general")`). -/
def _get_hint_type (level : Int) : String :=
  if level = 1 then "clarifying"
  else if level = 2 then "direction"
  else if level = 3 then "structure"
  else if level = 4 then "implementation"
  else "general"

/-- The `fallback_hints` dictionary of `_get_fallback_hint`
(`fallback_hints.get(level, "Keep thinking...")`). -/
def fallback_hints (level : Int) : String :=
  if level = 1 then
    "Let\x27s start by understanding the problem better. What are the inputs and expected outputs? What constraints should we consider?"
  else if level = 2 then
    "Think about what data structures or algorithms might be helpful here. Consider the time complexity requirements."
  else if level = 3 then
    "Try breaking the problem into smaller steps. What would be the main phases of your solution?"
  else if level = 4 then
    "Focus on implementing one part at a time. Start with the basic logic and handle edge cases later."
  else if level = 0 then
    "Based on your approach, you\x27re thinking in the right direction. What specific part would you like to explore further?"
  else if level = -1 then
    "It\x27s okay to feel stuck! Try starting with a simpler version of this problem. What would be the most basic case you could solve?"
  else
    "Keep thinking through the problem step by step. You\x27re making progress!"

/-- `HintService._get_fallback_hint` (timestamp omitted). -/
def _get_fallback_hint (max_hint_levels : Nat) (level : Int) (hint_type : Option String) : HintResponse :=
  { hint :=
      { level := level
        content := fallback_hints level
        hint_type := hint_type.getD (_get_hint_type level) }
    next_available := decide (level < (max_hint_levels : Int))
    total_levels := max_hint_levels }

/-- `HintService.get_hint`.  The `try` body raises
`ValueError("Maximum hint level reached")` when `next_level` exceeds
`max_hint_levels`, and propagates the generation failure otherwise; both are
caught by the function's own `except Exception`, which returns
`_get_fallback_hint(request.current_hint_level + 1)`. -/
def get_hint (max_hint_levels : Nat) (gen : String → Except String String)
    (request : HintRequest) (problem : Problem) : HintResponse :=
  let next_level := request.current_hint_level + 1
  if next_level > (max_hint_levels : Int) then
    _get_fallback_hint max_hint_levels (request.current_hint_level + 1) none
  else
    match gen (_create_hint_prompt problem next_level request.user_approach) with
    | .ok hint_content =>
      { hint :=
          { level := next_level
            content := hint_content
            hint_type := _get_hint_type next_level }
        next_available := decide (next_level < (max_hint_levels : Int))
        total_levels := max_hint_levels }
    | .error _ => _get_fallback_hint max_hint_levels (request.current_hint_level + 1) none

/-- `HintService.get_personalized_hint`. -/
def get_personalized_hint (max_hint_levels : Nat) (gen : String → Except String String)
    (user_approach : String) (problem : Problem) : HintResponse :=
  match gen (_create_personalized_hint_prompt problem user_approach) with
  | .ok hint_content =>
    { hint := { level := 0, content := hint_content, hint_type := "personalized" }
      next_available := true
      total_levels := max_hint_levels }
  | .error _ => _get_fallback_hint max_hint_levels 0 (some "personalized")

/-- `HintService.get_stuck_help`. -/
def get_stuck_help (max_hint_levels : Nat) (gen : String → Except String String)
    (problem : Problem) : HintResponse :=
  match gen (_create_stuck_help_prompt problem) with
  | .ok hint_content =>
    { hint := { level := -1, content := hint_content, hint_type := "emergency" }
      next_available := true
      total_levels := max_hint_levels }
  | .error _ => _get_fallback_hint max_hint_levels (-1) (some "emergency")

end HintService

/-! ## Spec-side decomposition used by the context-enrichment claim

These three definitions follow the spec's wording for the optional context
blocks ("history → profile → problem", each contributing nothing when
absent); the refinement theorem compares the source-side
`_enhance_prompt_with_context` against their concatenation. -/

/-- Spec-side: the conversation-history block (last 3 entries, each with the
prior-turn marker), empty when no history is present. -/
def specHistoryPart (context : GeminiService.PromptContext) : String :=
  if context.conversation_history ≠ [] then
    "\n\nConversation History:\n" ++ String.intercalate "\n"
      ((GeminiService.lastN 3 context.conversation_history).map (fun item => "Previous: " ++ item))
  else ""

/-- Spec-side: the one-line profile summary, empty when absent. -/
def specProfilePart (context : GeminiService.PromptContext) : String :=
  match context.user_profile with
  | some profile =>
    "\n\nUser Profile: Skill Level: " ++ profile.skill_level.getD "Unknown"
      ++ ", Goal: " ++ profile.target_goal.getD "Unknown"
  | none => ""

/-- Spec-side: the one-line active-problem summary, empty when absent. -/
def specProblemPart (context : GeminiService.PromptContext) : String :=
  match context.current_problem with
  | some problem =>
    "\n\nCurrent Problem Context: " ++ problem.title.getD "N/A"
      ++ " - " ++ problem.difficulty.getD "Unknown" ++ " difficulty"
  | none => ""

/-! ## Concrete fixtures used by witness and counterexample theorems -/

/-- An empty generation context. -/
def emptyCtx : GeminiService.PromptContext :=
  { conversation_history := [], user_profile := none, current_problem := none }

/-- A generation oracle that errors twice, then answers `" ok "` on the third
attempt. -/
def oracleThirdTry : String → Nat → GeminiService.AttemptOutcome :=
  fun _ n => if n = 2 then .resp " ok " else .err "boom"

/-- A generation oracle that errors on every attempt. -/
def oracleAllFail : String → Nat → GeminiService.AttemptOutcome :=
  fun _ _ => .err "boom3"

/-- A generation collaborator that always raises. -/
def genAlwaysError : String → Except String String :=
  fun _ => .error "boom"

/-- A generation collaborator answering a response with two `"Problem"`
marker occurrences. -/
def genTwoProblems : String → Except String String :=
  fun _ => .ok "Problem\nTitle: A\nProblem\nTitle: B"

/-- A generation collaborator answering a single unlabeled paragraph (no
recognizable section header). -/
def genParagraph : String → Except String String :=
  fun _ => .ok "Just an unlabeled paragraph of prose."

/-- A concrete code-review request. -/
def sampleReviewRequest : CodeReviewRequest :=
  { code := "print(1)", language := "python", problem_context := none,
    focus_aspects := [], additional_context := none }

/-- A concrete problem-generation request asking for one variation. -/
def sampleGenRequest1 : ProblemGenerationRequest :=
  { original_problem := "orig", num_variations := 1, difficulty_level := .MEDIUM,
    context_options := [], focus_areas := [], include_hints := true }

/-! # Theorems -/

/-! ## Shared helper lemmas -/

/-- Nonemptiness of the synthesized placeholder statement. -/
theorem practice_placeholder_ne_empty (n : Nat) (cc : String) :
    ("Practice problem " ++ toString n ++ " focusing on " ++ cc) ≠ "" := by
  intro h
  have hlen := congrArg String.length h
  simp only [String.length_append] at hlen
  have h17 : ("Practice problem ").length = 17 := rfl
  have h0 : ("" : String).length = 0 := rfl
  omega

/-- Folding the review-section scanner over header-free lines starting from
an open state with no current section leaves the state unchanged. -/
theorem reviewFold_no_headers (secs : CodeReviewService.ReviewSections) :
    ∀ (lines : List String),
      (∀ l ∈ lines, CodeReviewService.headerKeyOf (Py.strip l) = none) →
      lines.foldl CodeReviewService.reviewStep { secs := secs, cur := none, content := [] } =
        { secs := secs, cur := none, content := [] }
  | [], _ => rfl
  | l :: ls, h => by
    have hl : CodeReviewService.headerKeyOf (Py.strip l) = none := h l (by simp)
    have hstep : CodeReviewService.reviewStep { secs := secs, cur := none, content := [] } l =
        { secs := secs, cur := none, content := [] } := by
      unfold CodeReviewService.reviewStep
      dsimp only
      rw [hl]
      simp
    rw [List.foldl_cons, hstep]
    exact reviewFold_no_headers secs ls (fun x hx => h x (by simp [hx]))

/-! ## Claim theorems -/

/-- C1: the claim says a `get_hint` request at the maximum level fails with
an invalid-request condition reported to the caller and is not replaced by a
fallback record.  The code raises `ValueError("Maximum hint level reached")`
but catches it in the same function's `except Exception`, returning a
fallback `HintResponse` at the out-of-range level 5: evaluating `get_hint`
at `current_hint_level = 4` (maximum 4) yields a record, for every
generation collaborator. -/
theorem get_hint_at_max_level_returns_fallback_record
    (gen : String → Except String String) (pid : String) (ua : Option String) (p : Problem) :
    HintService.get_hint 4 gen { problem_id := pid, current_hint_level := 4, user_approach := ua } p =
      { hint :=
          { level := 5
            content := "Keep thinking through the problem step by step. You\x27re making progress!"
            hint_type := "general" }
        next_available := false
        total_levels := 4 } := rfl

/-- C2 counterexample: for the input line `"Correctness Score: 9/10"` the
extracted correctness score is not 9 (the digit concatenation rule yields
910, which is out of range, so the default 7 is kept). -/
theorem correctness_score_nine_slash_ten_not_nine :
    ¬ ((CodeReviewService._parse_overall_section "Correctness Score: 9/10").correctness_score = 9) := by
  decide

/-- C2 amended: for `"Correctness Score: 9/10"` the concatenated digits 910
are out of range, so the prior default 7 is retained; for
`"Correctness Score: 15"` the value 15 is likewise rejected, keeping 7; a
correctness-labeled line whose concatenated digits lie in [1,10], such as
`"Correctness Score: 9"`, extracts that score. -/
theorem correctness_score_digit_concatenation :
    (CodeReviewService._parse_overall_section "Correctness Score: 9/10").correctness_score = 7 ∧
    (CodeReviewService._parse_overall_section "Correctness Score: 15").correctness_score = 7 ∧
    (CodeReviewService._parse_overall_section "Correctness Score: 9").correctness_score = 9 := by
  decide

/-- C7: a `generate_response` call on a client that was never initialized
(no credentials, `self.model is None`) fails immediately with the
service-unavailable message: for every oracle, retry budget and delay
configuration, the result is the terminal failure and the list of performed
backoff delays is empty (no generation attempt is consulted). -/
theorem generate_response_uninitialized_fails_immediately
    (d mr : Nat) (prompt : String) (ctx : GeminiService.PromptContext)
    (oracle : String → Nat → GeminiService.AttemptOutcome) :
    GeminiService.generate_response false d mr prompt ctx oracle =
      { result := .error "Gemini client not initialized. Please check your API key."
        delays := [] } := rfl

/-- C8: list extraction on `"- a\n- b\nc"` yields exactly `["a", "b c"]`:
the non-marker line `c` is space-joined onto the open item `b`, the open
item is flushed at end of input, empty items are discarded and order is
preserved. -/
theorem parse_list_section_merges_continuations :
    CodeReviewService._parse_list_section "- a\n- b\nc" = ["a", "b c"] := by
  decide

/-- C3 counterexample: with requested count `num_variations = 1` and a
generated response containing two `"Problem"` marker blocks,
`generate_problems` returns 2 records — more than the requested count, so
the claimed bound "length ≤ requested count" fails on the parse path. -/
theorem generate_problems_can_exceed_requested_count :
    sampleGenRequest1.num_variations = 1 ∧
    ¬ ((ProblemGeneratorService.generate_problems genTwoProblems sampleGenRequest1).length ≤
        sampleGenRequest1.num_variations) := by
  decide

/-- C3 amended: `generate_problems` returns the parsed records unchanged —
one per `"Problem"` marker chunk, with no truncation to the requested
count — whenever parsing yields at least one record; when parsing yields no
record, or generation fails, the result is the fixed fallback list
truncated to the requested count (so only that branch has length
`min count 3 ≤ count`). -/
theorem generate_problems_count_contract
    (gen : String → Except String String) (request : ProblemGenerationRequest) :
    (∀ msg, gen (ProblemGeneratorService._create_generation_prompt request) = .error msg →
        ProblemGeneratorService.generate_problems gen request =
          ProblemGeneratorService._generate_fallback_problems request) ∧
    (∀ response, gen (ProblemGeneratorService._create_generation_prompt request) = .ok response →
        ProblemGeneratorService._parse_generated_problems response = [] →
        ProblemGeneratorService.generate_problems gen request =
          ProblemGeneratorService._generate_fallback_problems request) ∧
    (∀ response, gen (ProblemGeneratorService._create_generation_prompt request) = .ok response →
        ProblemGeneratorService._parse_generated_problems response ≠ [] →
        ProblemGeneratorService.generate_problems gen request =
          ProblemGeneratorService._parse_generated_problems response ∧
        (ProblemGeneratorService._parse_generated_problems response).length =
          (Py.split response "Problem").length - 1) ∧
    (ProblemGeneratorService._generate_fallback_problems request).length =
      min request.num_variations 3 := by
  refine ⟨?_, ?_, ?_, ?_⟩
  · intro msg hg
    unfold ProblemGeneratorService.generate_problems
    rw [hg]
  · intro response hg hp
    unfold ProblemGeneratorService.generate_problems
    rw [hg]
    dsimp only
    rw [hp]
    simp
  · intro response hg hp
    constructor
    · unfold ProblemGeneratorService.generate_problems
      rw [hg]
      dsimp only
      simp [hp]
    · unfold ProblemGeneratorService._parse_generated_problems
      simp [List.length_map, List.enumFrom_length, List.length_drop]
  · unfold ProblemGeneratorService._generate_fallback_problems
    simp [List.length_map, List.length_take]
    rfl

/-- C3 witness: the generation-failure branch, the two-marker parse branch
and the fallback-length equation at concrete inputs. -/
theorem generate_problems_count_contract_witness :
    ProblemGeneratorService.generate_problems genAlwaysError sampleGenRequest1 =
      ProblemGeneratorService._generate_fallback_problems sampleGenRequest1 ∧
    ProblemGeneratorService.generate_problems genTwoProblems sampleGenRequest1 =
      ProblemGeneratorService._parse_generated_problems "Problem\nTitle: A\nProblem\nTitle: B" ∧
    (ProblemGeneratorService._generate_fallback_problems sampleGenRequest1).length =
      min sampleGenRequest1.num_variations 3 :=
  ⟨(generate_problems_count_contract genAlwaysError sampleGenRequest1).1 "boom" rfl,
   ((generate_problems_count_contract genTwoProblems sampleGenRequest1).2.2.1
      "Problem\nTitle: A\nProblem\nTitle: B" rfl (by decide)).1,
   (generate_problems_count_contract genTwoProblems sampleGenRequest1).2.2.2⟩

/-- Unfolding of `generate_response` on an initialized client: the fold of
the attempt loop over `range max_retries`. -/
theorem generate_response_initialized_eq (d mr : Nat) (prompt : String)
    (ctx : GeminiService.PromptContext) (oracle : String → Nat → GeminiService.AttemptOutcome) :
    GeminiService.generate_response true d mr prompt ctx oracle =
      { result := ((List.range mr).foldl (GeminiService.generateStep d mr
                      (oracle (GeminiService._enhance_prompt_with_context prompt ctx)))
                      { done := none, delays := [] }).done.getD
                    (.error "generate_response returned None"),
        delays := ((List.range mr).foldl (GeminiService.generateStep d mr
                      (oracle (GeminiService._enhance_prompt_with_context prompt ctx)))
                      { done := none, delays := [] }).delays } := rfl

/-- C4: for an initialized client with retry limit 3 and base delay `d`: if
the capability fails (error or empty text) on attempts 0 and 1 and answers
a non-empty text on attempt 2, `generate_response` returns the trimmed text
after exactly the two backoff delays `d*1` then `d*2`; if all three
attempts fail, it raises the terminal failure carrying the last error
message (no fallback content), after the same two delays. -/
theorem generate_response_retry_behavior :
    (∀ (d : Nat) (prompt : String) (ctx : GeminiService.PromptContext)
        (oracle : String → Nat → GeminiService.AttemptOutcome) (m0 m1 t : String),
      GeminiService.attemptResult
          (oracle (GeminiService._enhance_prompt_with_context prompt ctx) 0) = .error m0 →
      GeminiService.attemptResult
          (oracle (GeminiService._enhance_prompt_with_context prompt ctx) 1) = .error m1 →
      oracle (GeminiService._enhance_prompt_with_context prompt ctx) 2 = .resp t →
      t ≠ "" →
      GeminiService.generate_response true d 3 prompt ctx oracle =
        { result := .ok (Py.strip t), delays := [d * 1, d * 2] }) ∧
    (∀ (d : Nat) (prompt : String) (ctx : GeminiService.PromptContext)
        (oracle : String → Nat → GeminiService.AttemptOutcome) (m0 m1 m2 : String),
      GeminiService.attemptResult
          (oracle (GeminiService._enhance_prompt_with_context prompt ctx) 0) = .error m0 →
      GeminiService.attemptResult
          (oracle (GeminiService._enhance_prompt_with_context prompt ctx) 1) = .error m1 →
      GeminiService.attemptResult
          (oracle (GeminiService._enhance_prompt_with_context prompt ctx) 2) = .error m2 →
      GeminiService.generate_response true d 3 prompt ctx oracle =
        { result := .error ("Failed to generate response after 3 attempts: " ++ m2),
          delays := [d * 1, d * 2] }) := by
  constructor
  · intro d prompt ctx oracle m0 m1 t h0 h1 h2 ht
    rw [generate_response_initialized_eq]
    set o := oracle (GeminiService._enhance_prompt_with_context prompt ctx) with ho
    rw [show List.range 3 = [0, 1, 2] from rfl]
    rw [List.foldl_cons, List.foldl_cons, List.foldl_cons, List.foldl_nil]
    have e0 : GeminiService.generateStep d 3 o { done := none, delays := [] } 0 =
        { done := none, delays := [d * 1] } := by
      unfold GeminiService.generateStep
      dsimp only
      rw [h0]
      norm_num
    have e1 : GeminiService.generateStep d 3 o { done := none, delays := [d * 1] } 1 =
        { done := none, delays := [d * 1, d * 2] } := by
      unfold GeminiService.generateStep
      dsimp only
      rw [h1]
      norm_num
    have e2 : GeminiService.generateStep d 3 o { done := none, delays := [d * 1, d * 2] } 2 =
        { done := some (.ok (Py.strip t)), delays := [d * 1, d * 2] } := by
      unfold GeminiService.generateStep
      dsimp only
      rw [h2]
      simp [GeminiService.attemptResult, ht]
    rw [e0, e1, e2]
    rfl
  · intro d prompt ctx oracle m0 m1 m2 h0 h1 h2
    rw [generate_response_initialized_eq]
    set o := oracle (GeminiService._enhance_prompt_with_context prompt ctx) with ho
    rw [show List.range 3 = [0, 1, 2] from rfl]
    rw [List.foldl_cons, List.foldl_cons, List.foldl_cons, List.foldl_nil]
    have e0 : GeminiService.generateStep d 3 o { done := none, delays := [] } 0 =
        { done := none, delays := [d * 1] } := by
      unfold GeminiService.generateStep
      dsimp only
      rw [h0]
      norm_num
    have e1 : GeminiService.generateStep d 3 o { done := none, delays := [d * 1] } 1 =
        { done := none, delays := [d * 1, d * 2] } := by
      unfold GeminiService.generateStep
      dsimp only
      rw [h1]
      norm_num
    have e2 : GeminiService.generateStep d 3 o { done := none, delays := [d * 1, d * 2] } 2 =
        { done := some (.error ("Failed to generate response after "
            ++ toString 3 ++ " attempts: " ++ m2)),
          delays := [d * 1, d * 2] } := by
      unfold GeminiService.generateStep
      dsimp only
      rw [h2]
      norm_num
    rw [e0, e1, e2]
    rfl

/-- C4 witness: base delay 1; an oracle failing twice then answering
`" ok "` returns the trimmed `"ok"` with delays `[1, 2]`; an oracle failing
three times yields the terminal failure carrying its last message. -/
theorem generate_response_retry_behavior_witness :
    GeminiService.generate_response true 1 3 "p" emptyCtx oracleThirdTry =
      { result := .ok "ok", delays := [1, 2] } ∧
    GeminiService.generate_response true 1 3 "p" emptyCtx oracleAllFail =
      { result := .error "Failed to generate response after 3 attempts: boom3", delays := [1, 2] } := by
  constructor
  · exact generate_response_retry_behavior.1 1 "p" emptyCtx oracleThirdTry
      "boom" "boom" " ok " rfl rfl rfl (by decide)
  · exact generate_response_retry_behavior.2 1 "p" emptyCtx oracleAllFail
      "boom3" "boom3" "boom3" rfl rfl rfl

/-- C5: whenever the generated review text has no line matching any
recognized section-header test, `review_code` returns (without raising) a
complete review whose overall summary is the parse-time default
`"Code analysis completed"` and whose issues/optimizations/alternatives are
all empty. -/
theorem review_code_no_headers_yields_defaults
    (gen : String → Except String String) (request : CodeReviewRequest) (response : String)
    (hg : gen (CodeReviewService._generate_code_review_prompt request) = .ok response)
    (h : ∀ l ∈ Py.split response "\n", CodeReviewService.headerKeyOf (Py.strip l) = none) :
    (CodeReviewService.review_code gen request).overall_analysis.summary = "Code analysis completed" ∧
    (CodeReviewService.review_code gen request).issues = [] ∧
    (CodeReviewService.review_code gen request).optimizations = [] ∧
    (CodeReviewService.review_code gen request).alternatives = [] := by
  unfold CodeReviewService.review_code
  rw [hg]
  unfold CodeReviewService._parse_review_response
  dsimp only
  rw [reviewFold_no_headers CodeReviewService.reviewDefaults (Py.split response "\n") h]
  simp [CodeReviewService.maybeCommit, CodeReviewService.reviewDefaults]

/-- C5 witness: a single unlabeled paragraph drives the default path. -/
theorem review_code_no_headers_yields_defaults_witness :
    (CodeReviewService.review_code genParagraph sampleReviewRequest).overall_analysis.summary =
        "Code analysis completed" ∧
    (CodeReviewService.review_code genParagraph sampleReviewRequest).issues = [] ∧
    (CodeReviewService.review_code genParagraph sampleReviewRequest).optimizations = [] ∧
    (CodeReviewService.review_code genParagraph sampleReviewRequest).alternatives = [] :=
  review_code_no_headers_yields_defaults genParagraph sampleReviewRequest
    "Just an unlabeled paragraph of prose." rfl (by decide)

/-- C6: every record produced by problem-field extraction has a non-empty
statement (a chunk without statement content gets the synthesized
placeholder referencing the concept and the chunk index); and the two-block
input `"Problem\nTitle: X\nDifficulty: Hard\nStatement: Do Y"` followed by
`"Problem\nTitle: Z"` yields exactly two records, the second carrying the
index-referencing placeholder statement. -/
theorem parse_problem_statement_nonempty_and_two_block_scenario :
    (∀ (section_text : String) (problem_num : Nat),
        (ProblemGeneratorService._parse_problem_section section_text problem_num).statement ≠ "") ∧
    ProblemGeneratorService._parse_generated_problems
        "Problem\nTitle: X\nDifficulty: Hard\nStatement: Do Y\nProblem\nTitle: Z" =
      [ { title := "X"
          statement := "Do Y"
          difficulty := .HARD
          core_concept := "Algorithm Practice"
          context := "Generated variation"
          estimated_time := "15-20 min"
          complexity := "O(n)"
          approach_hint := none },
        { title := "Z"
          statement := "Practice problem 2 focusing on Algorithm Practice"
          difficulty := .MEDIUM
          core_concept := "Algorithm Practice"
          context := "Generated variation"
          estimated_time := "15-20 min"
          complexity := "O(n)"
          approach_hint := none } ] := by
  constructor
  · intro section_text problem_num
    unfold ProblemGeneratorService._parse_problem_section
    dsimp only
    split
    · exact practice_placeholder_ne_empty problem_num _
    · assumption
  · decide

/-- C9: context enrichment is pure and produces the fixed order
guidance → instruction → last-3 history → profile line → problem line, with
absent context parts contributing nothing. -/
theorem enhance_prompt_fixed_order (prompt : String) (context : GeminiService.PromptContext) :
    GeminiService._enhance_prompt_with_context prompt context =
      GeminiService.system_context ++ "\n\nUser Request: " ++ prompt
        ++ specHistoryPart context ++ specProfilePart context ++ specProblemPart context := by
  rcases context with ⟨hist, prof, prob⟩
  unfold GeminiService._enhance_prompt_with_context GeminiService._add_system_context
    specHistoryPart specProfilePart specProblemPart
  dsimp only
  by_cases hh : hist = [] <;> rcases prof with _ | p <;> rcases prob with _ | q <;>
    simp [hh, String.append_assoc, String.append_empty]

/-- C10: the personalized-hint operation (level 0) and the emergency
stuck-help operation (level −1) always report `next_available = True`, both
on generation success and on the fallback path, independent of the ordinary
1..4 hint track. -/
theorem personalized_and_stuck_always_next_available
    (gen : String → Except String String) (user_approach : String) (problem : Problem) :
    (HintService.get_personalized_hint 4 gen user_approach problem).next_available = true ∧
    (HintService.get_stuck_help 4 gen problem).next_available = true := by
  constructor
  · unfold HintService.get_personalized_hint
    cases gen (HintService._create_personalized_hint_prompt problem user_approach) <;>
      simp [HintService._get_fallback_hint]
  · unfold HintService.get_stuck_help
    cases gen (HintService._create_stuck_help_prompt problem) <;>
      simp [HintService._get_fallback_hint]

end DSACoach
